import Mathlib

/-!
Shallow embedding of the storage/sync adapter of the torctoberfest book-club
app (src/utilities/torcreads/src/lib/storage.ts, first version of the file,
lines 1-367, which is the one the rest of the app imports), together with the
remote Apps Script handlers published in
src/utilities/torcreads/GOOGLE_SHEETS_SETUP.md.

JavaScript runtime values are modelled by the inductive type `JVal`.
Numbers are modelled as integers (the vote counts, ratings and sizes the
adapter manipulates are integral); `NaN` is a separate constructor.
Asynchronous functions are modelled as pure state transformers: the outcome
of each network fetch is an explicit input (`FetchOutcome`), and the
browser-local mirror store is passed in and returned explicitly.
-/

namespace TorcReads

/-- JavaScript values, restricted to the shapes the adapter manipulates.
Numeric values are integers; `nan` models IEEE NaN. -/
inductive JVal where
  | undefined
  | null
  | bool (b : Bool)
  | int (n : Int)
  | nan
  | str (s : String)
  | arr (elems : List JVal)
  | obj (fields : List (String × JVal))

/-- JavaScript truthiness: `undefined`, `null`, `false`, `0`, `NaN` and the
empty string are falsy; every object and array is truthy. -/
def JVal.falsy : JVal → Bool
  | .undefined => true
  | .null => true
  | .bool b => !b
  | .int n => n == 0
  | .nan => true
  | .str s => s == ""
  | .arr _ => false
  | .obj _ => false

/-- Model of the JavaScript `a || b` operator. -/
def jsOr (a b : JVal) : JVal := if a.falsy then b else a

/-- First-match association lookup, as JavaScript property access on the
field list of an object literal. -/
def lookupAssoc : List (String × JVal) → String → JVal
  | [], _ => .undefined
  | (k', v) :: rest, k => if k' = k then v else lookupAssoc rest k

/-- Property read `v[k]`: `undefined` on non-objects (the adapter never reads
properties of primitives where it matters). -/
def jget : JVal → String → JVal
  | .obj fs, k => lookupAssoc fs k
  | _, _ => .undefined

/-- Association update: overwrite the first binding of `k`, or append one. -/
def setAssoc : List (String × JVal) → String → JVal → List (String × JVal)
  | [], k, x => [(k, x)]
  | (k', v') :: rest, k, x =>
      if k' = k then (k', x) :: rest else (k', v') :: setAssoc rest k x

/-- Property write `v[k] = x` (also models spread-with-override
`\x7b...v, k: x\x7d`); a no-op on non-objects. -/
def jset : JVal → String → JVal → JVal
  | .obj fs, k, x => .obj (setAssoc fs k x)
  | v, _, _ => v

/-- Strict equality of a value with a string literal, `v === s`. -/
def jStrEq (v : JVal) (s : String) : Bool :=
  match v with
  | .str t => t = s
  | _ => false

/-- Whether a value is an object. -/
def JVal.isObj : JVal → Bool
  | .obj _ => true
  | _ => false

/-- Whether a value is an array, `Array.isArray(v)`. -/
def JVal.isArr : JVal → Bool
  | .arr _ => true
  | _ => false

/-- JavaScript whitespace recognised by `Number` and `JSON.parse`. -/
def isWsChar (c : Char) : Bool :=
  c = ' ' || c = '\t' || c = '\n' || c = '\r'

/-- Digit value of a character, if it is a decimal digit. -/
def charDigit (c : Char) : Option Nat :=
  if 48 ≤ c.toNat ∧ c.toNat ≤ 57 then some (c.toNat - 48) else none

/-- Value of a non-empty run of decimal digits. -/
def natOfDigits : List Char → Option Nat
  | [] => none
  | cs => go cs 0
where
  go : List Char → Nat → Option Nat
    | [], acc => some acc
    | c :: rest, acc =>
        match charDigit c with
        | some d => go rest (acc * 10 + d)
        | none => none

/-- Model of JavaScript `Number(s)` on strings, restricted to integer
literals: surrounding whitespace is ignored, the empty (or all-whitespace)
string is `0`, an optional sign followed by digits is that integer, and
anything else is NaN (`none`). -/
def strToNumJS (s : String) : Option Int :=
  let cs := (s.data.dropWhile isWsChar).reverse.dropWhile isWsChar |>.reverse
  match cs with
  | [] => some 0
  | '-' :: rest => (natOfDigits rest).map (fun n => -(n : Int))
  | '+' :: rest => (natOfDigits rest).map (fun n => (n : Int))
  | _ => (natOfDigits cs).map (fun n => (n : Int))

/-- Model of JavaScript `Number(v)`; `none` is NaN. Composite values are
modelled as NaN (the adapter never coerces arrays or objects to numbers on
the paths verified here). -/
def jsToNum : JVal → Option Int
  | .undefined => none
  | .null => some 0
  | .bool b => some (if b then 1 else 0)
  | .int n => some n
  | .nan => none
  | .str s => strToNumJS s
  | .arr _ => none
  | .obj _ => none

/-- Option-level integer rendered back as a value (`NaN` when `none`). -/
def numToJVal : Option Int → JVal
  | some n => .int n
  | none => .nan

/-- Model of the flag coercion `v === 'TRUE' || v === true` used by
`getBooks` and `getVotingOptions` for `is_member`. -/
def jsEqTRUE (v : JVal) : Bool :=
  jStrEq v "TRUE" || (match v with | .bool b => b | _ => false)

/-! ## Remote Store Gateway: `callSheetsAPI` (storage.ts lines 55-92) -/

/-- Failures that can arise inside the `try` block of `callSheetsAPI`. -/
inductive JSError where
  | networkError
  | httpError (status : Nat)
  | jsonParseError
  | scriptError (message : JVal)
  | typeError

/-- Outcome of one `fetch`: either the promise rejects, or an HTTP response
arrives with a status code and a body (`none` when `response.json()`
rejects because the body is not valid JSON). -/
inductive FetchOutcome where
  | fail
  | resp (status : Nat) (body : Option JVal)

/-- HTTP `response.ok`: status in the 2xx range. -/
def responseOk (status : Nat) : Bool := 200 ≤ status && status ≤ 299

/-- Whether a decoded body is error-tagged:
`result && result.status === 'error'`. -/
def isErrorTagged (v : JVal) : Bool :=
  !v.falsy && jStrEq (jget v "status") "error"

/-- Body of the `try` block of `callSheetsAPI`: throws on a rejected fetch,
on a non-2xx status, on an undecodable body, and on an error-tagged body
(`throw new Error(result.message)`); otherwise returns the decoded body. -/
def callSheetsAPITry : FetchOutcome → Except JSError JVal
  | .fail => .error .networkError
  | .resp status body =>
      if responseOk status then
        match body with
        | none => .error .jsonParseError
        | some v =>
            if isErrorTagged v then .error (.scriptError (jget v "message"))
            else .ok v
      else .error (.httpError status)

/-- Model of `callSheetsAPI(action, data)` as seen by its callers: `null`
when the endpoint is unconfigured, and otherwise the `try` body with every
thrown failure caught, logged and converted to `null` by the
`catch` clause at storage.ts line 88. -/
def callSheetsAPI (configured : Bool) (out : FetchOutcome) : Option JVal :=
  if configured then
    match callSheetsAPITry out with
    | .ok v => some v
    | .error _ => none
  else none

/-! ## Entity row remapping and list reads (storage.ts lines 103-120,
161-175, 200-214) -/

/-- Field remap of one remote book row into the UI entity shape, as in the
`remoteData.map` callback of `getBooks`. -/
def mapBookRow (b : JVal) : JVal :=
  .obj [("id", jget b "id"),
        ("title", jget b "title"),
        ("author", jget b "author"),
        ("coverUrl", jget b "cover_url"),
        ("dateRead", jget b "date_read"),
        ("rating", numToJVal (jsToNum (jget b "rating"))),
        ("notes", jget b "notes"),
        ("addedBy", jget b "added_by"),
        ("isMember", .bool (jsEqTRUE (jget b "is_member"))),
        ("createdAt", jget b "created_at")]

/-- Field remap of one remote voting-option row, as in `getVotingOptions`. -/
def mapVoteRow (o : JVal) : JVal :=
  .obj [("id", jget o "id"),
        ("bookTitle", jget o "book_title"),
        ("author", jget o "author"),
        ("suggestedBy", jget o "suggested_by"),
        ("isMember", .bool (jsEqTRUE (jget o "is_member"))),
        ("votes", numToJVal (jsToNum (jget o "votes"))),
        ("createdAt", jget o "created_at")]

/-- Field remap of one remote study-guide row, as in `getStudyGuides`. -/
def mapGuideRow (g : JVal) : JVal :=
  .obj [("id", jget g "id"),
        ("title", jget g "title"),
        ("bookTitle", jget g "book_title"),
        ("fileUrl", jget g "file_url"),
        ("fileName", jget g "file_name"),
        ("fileSize", numToJVal (jsToNum (jget g "file_size"))),
        ("uploadedAt", jget g "uploaded_at")]

/-- Shared shape of the three list reads: remap the remote body when it is
truthy (a non-array truthy body would make `.map` throw a TypeError),
otherwise fall back to the stored Local Mirror sequence unchanged. -/
def listRead (rowMap : JVal → JVal) (configured : Bool) (out : FetchOutcome)
    (mirror : List JVal) : Except JSError (List JVal) :=
  match callSheetsAPI configured out with
  | some v =>
      if v.falsy then .ok mirror
      else
        match v with
        | .arr rows => .ok (rows.map rowMap)
        | _ => .error .typeError
  | none => .ok mirror

/-- Model of `getBooks` (storage.ts lines 103-120). -/
def getBooks (configured : Bool) (out : FetchOutcome) (mirror : List JVal) :
    Except JSError (List JVal) :=
  listRead mapBookRow configured out mirror

/-- Model of `getVotingOptions` (storage.ts lines 200-214). -/
def getVotingOptions (configured : Bool) (out : FetchOutcome)
    (mirror : List JVal) : Except JSError (List JVal) :=
  listRead mapVoteRow configured out mirror

/-- Model of `getStudyGuides` (storage.ts lines 161-175). -/
def getStudyGuides (configured : Bool) (out : FetchOutcome)
    (mirror : List JVal) : Except JSError (List JVal) :=
  listRead mapGuideRow configured out mirror

/-! ## Create operations (storage.ts lines 122-140 and 216-230) -/

/-- Locally identified copy written by `saveBook`:
`\x7b ...book, id: <random>, createdAt: <now> \x7d`. -/
def localBookEntry (book : JVal) (newId ts : String) : JVal :=
  jset (jset book "id" (.str newId)) "createdAt" (.str ts)

/-- Model of `saveBook` acting on the books mirror: the Gateway result is
ignored and a locally identified copy is unshifted (prepended). `newId`
stands for the freshly generated `Math.random` id and `ts` for the current
ISO timestamp. -/
def saveBook (book : JVal) (newId ts : String) (_remoteResult : Option JVal)
    (mirror : List JVal) : List JVal :=
  localBookEntry book newId ts :: mirror

/-- Locally identified copy written by `saveVotingOption`. -/
def localVoteEntry (option : JVal) (newId ts : String) : JVal :=
  jset (jset option "id" (.str newId)) "createdAt" (.str ts)

/-- Model of `saveVotingOption` acting on the votes mirror: the Gateway
result is ignored and a locally identified copy is pushed (appended). -/
def saveVotingOption (option : JVal) (newId ts : String)
    (_remoteResult : Option JVal) (mirror : List JVal) : List JVal :=
  mirror ++ [localVoteEntry option newId ts]

/-! ## Vote increment (storage.ts lines 232-241) -/

/-- New value stored by `votes[index].votes = (votes[index].votes || 0) + 1`,
modelled numerically (vote counts are numbers in the data model; JavaScript
string concatenation for string-valued counts is outside this model). -/
def votesPlusOne (old : JVal) : JVal :=
  numToJVal ((jsToNum (jsOr old (.int 0))).map (· + 1))

/-- Model of `voteForOption` acting on the votes mirror: `findIndex` locates
the first entry whose `id` strictly equals the argument; if found, only that
entry's `votes` field is reassigned; otherwise the mirror is untouched. -/
def voteForOption (id : String) : List JVal → List JVal
  | [] => []
  | v :: rest =>
      if jStrEq (jget v "id") id then
        jset v "votes" (votesPlusOne (jget v "votes")) :: rest
      else v :: voteForOption id rest

/-- Vote count of the first mirror entry matching an id, if any. -/
def firstMatchVotes (mirror : List JVal) (id : String) : Option JVal :=
  (mirror.find? (fun v => jStrEq (jget v "id") id)).map (fun v => jget v "votes")

/-! ## Clearing and genre voting (storage.ts lines 243-246, 249-317) -/

/-- Model of `clearVotingOptions` acting on the votes mirror: the Gateway
result is ignored and the mirror is set to the empty sequence. -/
def clearVotingOptions (_remoteResult : Option JVal) (_mirror : List JVal) :
    List JVal :=
  []

/-- The static genre enumeration `DEFAULT_GENRES` (storage.ts lines 249-258). -/
def DEFAULT_GENRES : List String :=
  ["Action/Adventure",
   "Historical Fiction",
   "Drama / Literary Fiction",
   "Romance",
   "Sci-Fi",
   "Fantasy",
   "Mystery / Thriller",
   "Horror"]

/-- Result shape of a genre-vote read. -/
structure GenreVote where
  id : String
  name : String
  votes : Int
deriving Repr, DecidableEq

/-- Map key used when tallying a source row: `g.name || g.id`. -/
def genreKey (g : JVal) : JVal := jsOr (jget g "name") (jget g "id")

/-- Source sequence chosen by `getGenreVotes`:
`(remoteData && Array.isArray(remoteData)) ? remoteData : localVotes`
(arrays are always truthy). -/
def genreSource (configured : Bool) (out : FetchOutcome)
    (localVotes : List JVal) : List JVal :=
  match callSheetsAPI configured out with
  | some (.arr rows) => rows
  | some _ => localVotes
  | none => localVotes

/-- Value held by `votesMap` for a genre name after the `forEach` loop:
the tally `Number(g.votes || 0)` of the last source row whose key strictly
equals the name (later `Map.set` calls overwrite earlier ones); `none` when
no row matches. The inner `Option` is NaN. -/
def votesMapGet (source : List JVal) (name : String) : Option (Option Int) :=
  (source.reverse.find? (fun g => jStrEq (genreKey g) name)).map
    (fun g => jsToNum (jsOr (jget g "votes") (.int 0)))

/-- Final count for one genre: `votesMap.get(name) || 0` (absent, NaN and
zero all yield 0). -/
def genreVoteCount (source : List JVal) (name : String) : Int :=
  match votesMapGet source name with
  | some (some n) => if n = 0 then 0 else n
  | _ => 0

/-- Model of `getGenreVotes` (storage.ts lines 260-280): overlays the static
8-genre enumeration atop the chosen source tallies. -/
def getGenreVotes (configured : Bool) (out : FetchOutcome)
    (localVotes : List JVal) : List GenreVote :=
  DEFAULT_GENRES.map (fun name =>
    { id := name, name := name
      votes := genreVoteCount (genreSource configured out localVotes) name })

/-- Genre mirror content written by `resetGenreVotes` (storage.ts lines
313-317): all 8 canonical entries at vote count 0. -/
def resetGenreVotesLocal : List GenreVote :=
  DEFAULT_GENRES.map (fun name => { id := name, name := name, votes := 0 })

/-- Model of the remote `resetGenreVotes(ss)` handler from the Apps Script
in GOOGLE_SHEETS_SETUP.md: every data row of the `genre_votes` sheet gets
its third cell (the votes column) set to 0, and every data row of the
`user_genre_history` sheet is deleted. Sheets are given as their lists of
data rows (the header row is kept apart). -/
def resetGenreVotesRemote (genreRows _historyRows : List (List JVal)) :
    List (List JVal) × List (List JVal) :=
  (genreRows.map (fun r => r.set 2 (.int 0)), [])

/-! ## JSON parsing and the session profile (storage.ts lines 95-100,
325-340) -/

/-- One step of JSON string-literal parsing: characters after the opening
quote, up to and including the closing quote. Supports the escapes the
profile strings use. -/
def parseJsonStr : Nat → List Char → Option (String × List Char)
  | 0, _ => none
  | _, [] => none
  | fuel + 1, c :: rest =>
      if c = '"' then some ("", rest)
      else if c = '\\' then
        match rest with
        | [] => none
        | e :: rest' =>
            let esc : Option Char :=
              if e = '"' then some '"'
              else if e = '\\' then some '\\'
              else if e = '/' then some '/'
              else if e = 'n' then some '\n'
              else if e = 't' then some '\t'
              else if e = 'r' then some '\r'
              else none
            match esc with
            | some ch =>
                (parseJsonStr fuel rest').map (fun p => (⟨ch :: p.1.data⟩, p.2))
            | none => none
      else (parseJsonStr fuel rest).map (fun p => (⟨c :: p.1.data⟩, p.2))

mutual

/-- Fuel-bounded recursive-descent parser for one JSON value, modelling
`JSON.parse` restricted to the grammar the stored profiles use (numbers are
integer literals). Returns the value and the unconsumed input. -/
def parseJsonVal : Nat → List Char → Option (JVal × List Char)
  | 0, _ => none
  | fuel + 1, cs =>
      match cs.dropWhile isWsChar with
      | [] => none
      | c :: rest =>
          if c = 'n' then
            match rest with
            | 'u' :: 'l' :: 'l' :: rest' => some (.null, rest')
            | _ => none
          else if c = 't' then
            match rest with
            | 'r' :: 'u' :: 'e' :: rest' => some (.bool true, rest')
            | _ => none
          else if c = 'f' then
            match rest with
            | 'a' :: 'l' :: 's' :: 'e' :: rest' => some (.bool false, rest')
            | _ => none
          else if c = '"' then
            (parseJsonStr (fuel + 1) rest).map (fun p => (.str p.1, p.2))
          else if c = '[' then
            match (rest.dropWhile isWsChar) with
            | ']' :: rest' => some (.arr [], rest')
            | _ => parseJsonElems fuel rest []
          else if c = '{' then
            match (rest.dropWhile isWsChar) with
            | '}' :: rest' => some (.obj [], rest')
            | _ => parseJsonFields fuel rest []
          else if c = '-' then
            match natOfDigits (rest.takeWhile (fun d => (charDigit d).isSome)) with
            | some n =>
                some (.int (-(n : Int)),
                      rest.dropWhile (fun d => (charDigit d).isSome))
            | none => none
          else
            match natOfDigits (cs.dropWhile isWsChar
                |>.takeWhile (fun d => (charDigit d).isSome)) with
            | some n =>
                some (.int (n : Int),
                      (cs.dropWhile isWsChar).dropWhile
                        (fun d => (charDigit d).isSome))
            | none => none

/-- Parses the elements of a non-empty JSON array after its `[`. -/
def parseJsonElems (fuel : Nat) (cs : List Char) (acc : List JVal) :
    Option (JVal × List Char) :=
  match fuel with
  | 0 => none
  | fuel + 1 =>
      match parseJsonVal fuel cs with
      | none => none
      | some (v, rest) =>
          match rest.dropWhile isWsChar with
          | ']' :: rest' => some (.arr (acc ++ [v]), rest')
          | ',' :: rest' => parseJsonElems fuel rest' (acc ++ [v])
          | _ => none

/-- Parses the fields of a non-empty JSON object after its opening brace. -/
def parseJsonFields (fuel : Nat) (cs : List Char)
    (acc : List (String × JVal)) : Option (JVal × List Char) :=
  match fuel with
  | 0 => none
  | fuel + 1 =>
      match cs.dropWhile isWsChar with
      | '"' :: rest =>
          match parseJsonStr (fuel + 1) rest with
          | none => none
          | some (key, rest') =>
              match rest'.dropWhile isWsChar with
              | ':' :: rest'' =>
                  match parseJsonVal fuel rest'' with
                  | none => none
                  | some (v, rest''') =>
                      match rest'''.dropWhile isWsChar with
                      | '}' :: restEnd => some (.obj (acc ++ [(key, v)]), restEnd)
                      | ',' :: restNext =>
                          parseJsonFields fuel restNext (acc ++ [(key, v)])
                      | _ => none
              | _ => none
      | _ => none

end

/-- Model of `JSON.parse(s)`: `none` when parsing throws. -/
def jsonParse (s : String) : Option JVal :=
  match parseJsonVal (s.length + 1) s.data with
  | some (v, rest) => if rest.dropWhile isWsChar = [] then some v else none
  | none => none

/-- Model of `getCurrentUser` (storage.ts lines 325-336). The stored value
of the `bookclub_user` key is the input (`none` when absent). The function
returns the raw JavaScript value handed to callers: a parsed non-string
profile is returned as-is, so the result is not forced into any shape. -/
def getCurrentUser (stored : Option String) : JVal :=
  match stored with
  | none => .obj [("name", .str "Book Club Member"), ("email", .str "")]
  | some data =>
      if data = "" then .obj [("name", .str "Book Club Member"), ("email", .str "")]
      else
        match jsonParse data with
        | some profile =>
            match profile with
            | .str s => .obj [("name", .str s), ("email", .str "")]
            | _ => profile
        | none => .obj [("name", .str data), ("email", .str "")]

/-- Whether a value has a string field under a key. -/
def hasStringField (v : JVal) (k : String) : Bool :=
  match jget v k with
  | .str _ => true
  | _ => false

/-! ## Genre voting (storage.ts lines 282-304) -/

/-- Observable run of `voteForGenre`: the thrown-or-resolved result (the
error payload is the argument of `new Error`), the Gateway actions actually
issued, and the raw genre-votes mirror content afterwards. -/
structure VoteGenreRun where
  result : Except JVal Unit
  remoteCalls : List String
  finalMirror : List JVal

/-- Serialisation of a GenreVote record as stored by `setLocal`. -/
def genreVoteToJVal (g : GenreVote) : JVal :=
  .obj [("id", .str g.id), ("name", .str g.name), ("votes", .int g.votes)]

/-- In-place increment `votes[index].votes += 1` at the first entry whose
name matches, as located by `findIndex`. -/
def bumpFirstGenre (genreName : String) : List GenreVote → List GenreVote
  | [] => []
  | v :: rest =>
      if v.name = genreName then { v with votes := v.votes + 1 } :: rest
      else v :: bumpFirstGenre genreName rest

/-- Tail of `voteForGenre` after the dead error check: re-read the
canonicalised tallies, bump (or push at 1) the chosen genre, store. -/
def voteForGenreUpdate (genreName : String) (configured : Bool)
    (readOut : FetchOutcome) (mirror : List JVal) : VoteGenreRun :=
  let votes := getGenreVotes configured readOut mirror
  let updated :=
    if votes.any (fun v => v.name = genreName) then
      bumpFirstGenre genreName votes
    else votes ++ [{ id := genreName, name := genreName, votes := 1 }]
  { result := .ok ()
    remoteCalls := ["voteGenre", "getGenreVotes"]
    finalMirror := updated.map genreVoteToJVal }

/-- Model of `voteForGenre(genreName)` (storage.ts lines 282-304).
`user` is the value returned by `getCurrentUser()`; `voteOut` is the fetch
outcome of the `voteGenre` action and `readOut` that of the nested
`getGenreVotes` read; `mirror` is the stored genre-votes sequence. The
function throws a validation error before any network traffic when
`user.email` is falsy; afterwards it re-reads the canonicalised tallies,
bumps the chosen genre (or pushes it at count 1) and rewrites the mirror. -/
def voteForGenre (user : JVal) (genreName : String) (configured : Bool)
    (voteOut readOut : FetchOutcome) (mirror : List JVal) : VoteGenreRun :=
  if (jget user "email").falsy then
    { result := .error (.str "Please set your profile email to vote")
      remoteCalls := []
      finalMirror := mirror }
  else
    match callSheetsAPI configured voteOut with
    | some v =>
        if isErrorTagged v then
          -- unreachable in fact: `callSheetsAPI` never returns an
          -- error-tagged body (it catches its own throw and yields null)
          { result := .error (jget v "message")
            remoteCalls := ["voteGenre"]
            finalMirror := mirror }
        else
          voteForGenreUpdate genreName configured readOut mirror
    | none => voteForGenreUpdate genreName configured readOut mirror

/-! ## Helper lemmas -/

theorem lookupAssoc_setAssoc_self (fs : List (String × JVal)) (k : String)
    (x : JVal) : lookupAssoc (setAssoc fs k x) k = x := by
  induction fs with
  | nil => simp [setAssoc, lookupAssoc]
  | cons p rest ih =>
      by_cases h : p.1 = k
      · simp [setAssoc, lookupAssoc, h]
      · simp [setAssoc, lookupAssoc, h, ih]

theorem lookupAssoc_setAssoc_ne (fs : List (String × JVal)) (k k' : String)
    (x : JVal) (h : k' ≠ k) :
    lookupAssoc (setAssoc fs k x) k' = lookupAssoc fs k' := by
  have hk : ¬ k = k' := fun hh => h hh.symm
  induction fs with
  | nil => simp [setAssoc, lookupAssoc, hk]
  | cons p rest ih =>
      obtain ⟨pk, pv⟩ := p
      by_cases hp : pk = k
      · subst hp
        simp [setAssoc, lookupAssoc, hk]
      · by_cases hp' : pk = k'
        · simp [setAssoc, lookupAssoc, hp, hp', h]
        · simp [setAssoc, lookupAssoc, hp, hp', ih]

theorem jget_jset_self (v : JVal) (k : String) (x : JVal)
    (h : v.isObj = true) : jget (jset v k x) k = x := by
  cases v <;> simp_all [JVal.isObj, jset, jget, lookupAssoc_setAssoc_self]

theorem jget_jset_ne (v : JVal) (k k' : String) (x : JVal) (h : k' ≠ k) :
    jget (jset v k x) k' = jget v k' := by
  cases v <;> simp [jset, jget, lookupAssoc_setAssoc_ne _ _ _ _ h]

theorem isObj_jset (v : JVal) (k : String) (x : JVal) :
    (jset v k x).isObj = v.isObj := by
  cases v <;> simp [jset, JVal.isObj]

theorem isObj_of_jStrEq_jget (v : JVal) (k s : String)
    (h : jStrEq (jget v k) s = true) : v.isObj = true := by
  cases v <;> simp_all [jget, jStrEq, JVal.isObj]

theorem votesPlusOne_int (n : Int) : votesPlusOne (.int n) = .int (n + 1) := by
  by_cases h : n = 0 <;>
    simp [votesPlusOne, jsOr, JVal.falsy, jsToNum, numToJVal, h]

theorem callSheetsAPI_fail_eq_none (c : Bool) :
    callSheetsAPI c .fail = none := by
  cases c <;> simp [callSheetsAPI, callSheetsAPITry]

theorem callSheetsAPI_badStatus_eq_none (c : Bool) (s : Nat)
    (b : Option JVal) (h : responseOk s = false) :
    callSheetsAPI c (.resp s b) = none := by
  cases c <;> simp [callSheetsAPI, callSheetsAPITry, h]

theorem callSheetsAPI_errorTagged_eq_none (c : Bool) (s : Nat) (v : JVal)
    (h : isErrorTagged v = true) :
    callSheetsAPI c (.resp s (some v)) = none := by
  cases c <;> by_cases hs : responseOk s <;>
    simp [callSheetsAPI, callSheetsAPITry, h, hs]

theorem callSheetsAPI_ok_eq_some (s : Nat) (v : JVal)
    (hs : responseOk s = true) (he : isErrorTagged v = false) :
    callSheetsAPI true (.resp s (some v)) = some v := by
  simp [callSheetsAPI, callSheetsAPITry, hs, he]

theorem isErrorTagged_false_of_callSheetsAPI (c : Bool) (o : FetchOutcome)
    (v : JVal) (h : callSheetsAPI c o = some v) : isErrorTagged v = false := by
  cases c with
  | false => simp [callSheetsAPI] at h
  | true =>
      cases o with
      | fail => simp [callSheetsAPI, callSheetsAPITry] at h
      | resp s b =>
          by_cases hs : responseOk s
          · cases b with
            | none => simp [callSheetsAPI, callSheetsAPITry, hs] at h
            | some u =>
                by_cases he : isErrorTagged u
                · simp [callSheetsAPI, callSheetsAPITry, hs, he] at h
                · simp [callSheetsAPI, callSheetsAPITry, hs, he] at h
                  simpa [← h] using he
          · simp [callSheetsAPI, callSheetsAPITry, hs] at h

/-! ## Claim C2 -/

/-- C2, counterexample: a 2xx response whose JSON body is tagged
`status: "error"` does NOT surface a failure to the caller of
`callSheetsAPI` — the throw is caught by the function's own catch clause
and the call returns null, exactly as for transport and status failures. -/
theorem callSheetsAPI_error_body_returns_null_cex :
    callSheetsAPI true
      (.resp 200 (some (.obj [("status", .str "error"), ("message", .str "boom")])))
      = none := by
  apply callSheetsAPI_errorTagged_eq_none
  rfl

/-- C2, amended: for every action and payload, `callSheetsAPI` returns null
on transport failure, on a non-2xx HTTP status, and also on a 2xx response
whose JSON body is tagged `status: "error"` (the raised descriptive failure
is caught and logged inside the function itself, never reaching the
caller); a 2xx response with a well-formed, non-error-tagged body is
returned to the caller. -/
theorem callSheetsAPI_failure_modes_amended (configured : Bool)
    (status : Nat) (body : JVal) :
    (callSheetsAPI configured .fail = none)
    ∧ (responseOk status = false →
        callSheetsAPI configured (.resp status (some body)) = none)
    ∧ (isErrorTagged body = true →
        callSheetsAPI configured (.resp status (some body)) = none)
    ∧ (responseOk status = true → isErrorTagged body = false →
        callSheetsAPI true (.resp status (some body)) = some body) := by
  refine ⟨callSheetsAPI_fail_eq_none configured, ?_, ?_, ?_⟩
  · intro h
    exact callSheetsAPI_badStatus_eq_none configured status (some body) h
  · intro h
    exact callSheetsAPI_errorTagged_eq_none configured status body h
  · intro hs he
    exact callSheetsAPI_ok_eq_some status body hs he

/-- C2, witness for the amended theorem at concrete inputs. -/
theorem callSheetsAPI_failure_modes_amended_witness :
    callSheetsAPI true (.resp 500 (some (.str "oops"))) = none
    ∧ callSheetsAPI true (.resp 200 (some (.arr []))) = some (.arr []) :=
  ⟨(callSheetsAPI_failure_modes_amended true 500 (.str "oops")).2.1 (by decide),
   (callSheetsAPI_failure_modes_amended true 200 (.arr [])).2.2.2
     (by decide) rfl⟩

/-! ## Claim C3 -/

/-- C3, counterexample: with the remote endpoint configured and responding
with an error-tagged body, `getBooks` does not return the empty result: it
returns the stored Local Mirror sequence, which here is non-empty. -/
theorem listRead_error_body_returns_mirror_cex :
    getBooks true
        (.resp 200 (some (.obj [("status", .str "error"), ("message", .str "nope")])))
        [.obj [("title", .str "Dune")]]
      = .ok [.obj [("title", .str "Dune")]]
    ∧ ([JVal.obj [("title", .str "Dune")]] : List JVal) ≠ [] := by
  constructor
  · have h := callSheetsAPI_errorTagged_eq_none true 200
      (.obj [("status", .str "error"), ("message", .str "nope")]) (by rfl)
    simp [getBooks, listRead, h]
  · exact List.cons_ne_nil _ _

/-- C3, amended: when the configured remote endpoint answers a read action
with an error-tagged body, each list call (`getBooks`, `getVotingOptions`,
`getStudyGuides`) returns the Local Mirror's stored sequence for that
collection — hence the empty/default result whenever the mirror is empty —
and does not throw an unhandled error. -/
theorem listRead_error_body_amended (status : Nat) (body : JVal)
    (mirror : List JVal) (_hs : responseOk status = true)
    (he : isErrorTagged body = true) :
    getBooks true (.resp status (some body)) mirror = .ok mirror
    ∧ getVotingOptions true (.resp status (some body)) mirror = .ok mirror
    ∧ getStudyGuides true (.resp status (some body)) mirror = .ok mirror := by
  have h := callSheetsAPI_errorTagged_eq_none true status body he
  exact ⟨by simp [getBooks, listRead, h], by simp [getVotingOptions, listRead, h],
    by simp [getStudyGuides, listRead, h]⟩

/-- C3, witness for the amended theorem: with an empty mirror the calls
return the empty result. -/
theorem listRead_error_body_amended_witness :
    getBooks true (.resp 200 (some (.obj [("status", .str "error")]))) []
      = .ok ([] : List JVal) := by
  exact (listRead_error_body_amended 200 (.obj [("status", .str "error")]) []
    (by decide) (by rfl)).1

/-! ## Claim C9 -/

/-- C9: the boolean-flag mapping used by `getBooks` and `getVotingOptions`
for `is_member` sends the remote string "TRUE" and the boolean true to
boolean true, and sends every other value — including the string "FALSE"
and an absent value — to boolean false. -/
theorem isMember_flag_mapping (r : JVal) :
    (jget (mapBookRow r) "isMember" = .bool (jsEqTRUE (jget r "is_member")))
    ∧ (jget (mapVoteRow r) "isMember" = .bool (jsEqTRUE (jget r "is_member")))
    ∧ (∀ v : JVal, jsEqTRUE v = true ↔ (v = .str "TRUE" ∨ v = .bool true))
    ∧ jsEqTRUE (.str "FALSE") = false
    ∧ jsEqTRUE .undefined = false := by
  refine ⟨rfl, rfl, ?_, rfl, rfl⟩
  intro v
  cases v <;> simp [jsEqTRUE, jStrEq]

/-- C9, witness at a concrete row. -/
theorem isMember_flag_mapping_witness :
    jget (mapBookRow (.obj [("is_member", .str "TRUE")])) "isMember" = .bool true
    ∧ (jsEqTRUE (.str "true") = false) :=
  ⟨(isMember_flag_mapping (.obj [("is_member", .str "TRUE")])).1.trans rfl,
   by
    have h := (isMember_flag_mapping (.obj [])).2.2.1 (.str "true")
    simp only [Bool.not_eq_true] at h ⊢
    by_contra hc
    rcases h.mp (by simpa using hc) with h1 | h1 <;> simp at h1⟩

/-! ## Claim C1 -/

/-- C1, counterexample: a remote response reporting a negative tally for
"Sci-Fi" makes `getGenreVotes` return that negative count — the claimed
non-negativity does not hold for every remote response. The 8-name shape
still holds at this input. -/
theorem genreVotes_negative_count_cex :
    ((getGenreVotes true
        (.resp 200 (some (.arr [.obj [("name", .str "Sci-Fi"), ("votes", .int (-1))]])))
        []).map GenreVote.votes = [0, 0, 0, 0, -1, 0, 0, 0])
    ∧ (-1 : Int) < 0 := by
  constructor
  · rfl
  · decide

/-- C1, amended: every genre-vote read returns a list of exactly 8 entries
whose ids and names are exactly the 8 canonical genre names in their fixed
order; each vote count is an integer which is 0 for every genre missing
from the remote/mirror source, and is non-negative provided every source
row's coerced vote value is non-negative (a source row reporting a negative
count is passed through as that negative count). -/
theorem genreVotes_canonical_amended (configured : Bool) (out : FetchOutcome)
    (localVotes : List JVal) :
    ((getGenreVotes configured out localVotes).map GenreVote.id = DEFAULT_GENRES)
    ∧ ((getGenreVotes configured out localVotes).map GenreVote.name = DEFAULT_GENRES)
    ∧ ((getGenreVotes configured out localVotes).length = 8)
    ∧ (∀ gv ∈ getGenreVotes configured out localVotes,
        (∀ g ∈ genreSource configured out localVotes,
          jStrEq (genreKey g) gv.name = false) → gv.votes = 0)
    ∧ ((∀ g ∈ genreSource configured out localVotes,
          0 ≤ (jsToNum (jsOr (jget g "votes") (.int 0))).getD 0) →
        ∀ gv ∈ getGenreVotes configured out localVotes, 0 ≤ gv.votes) := by
  refine ⟨?_, ?_, ?_, ?_, ?_⟩
  · rfl
  · rfl
  · rfl
  · intro gv hgv hnone
    simp only [getGenreVotes, List.mem_map] at hgv
    obtain ⟨name, -, rfl⟩ := hgv
    simp only [genreVoteCount, votesMapGet]
    have hfind : (genreSource configured out localVotes).reverse.find?
        (fun g => jStrEq (genreKey g) name) = none := by
      rw [List.find?_eq_none]
      intro g hg
      simpa using hnone g (List.mem_reverse.mp hg)
    rw [hfind]
    rfl
  · intro hpos gv hgv
    simp only [getGenreVotes, List.mem_map] at hgv
    obtain ⟨name, -, rfl⟩ := hgv
    simp only [genreVoteCount]
    cases hfind : votesMapGet (genreSource configured out localVotes) name with
    | none => simp
    | some o =>
        obtain ⟨g, hg, hnum⟩ :
            ∃ g, (genreSource configured out localVotes).reverse.find?
                (fun g => jStrEq (genreKey g) name) = some g
              ∧ jsToNum (jsOr (jget g "votes") (.int 0)) = o := by
          simpa [votesMapGet, Option.map_eq_some'] using hfind
        have hmem : g ∈ genreSource configured out localVotes :=
          List.mem_reverse.mp (List.mem_of_find?_eq_some hg)
        have hged := hpos g hmem
        rw [hnum] at hged
        cases o with
        | none => simp
        | some n =>
            simp only [Option.getD_some] at hged
            by_cases hz : n = 0 <;> simp [hz, hged]

/-- C1, witness for the amended theorem: a remote response listing only
"Fantasy" at 3 yields the full canonical 8-entry list, with 0 for the
missing "Horror" entry and non-negative counts throughout. -/
theorem genreVotes_canonical_amended_witness :
    ((getGenreVotes true
        (.resp 200 (some (.arr [.obj [("name", .str "Fantasy"), ("votes", .int 3)]])))
        []).map GenreVote.id = DEFAULT_GENRES)
    ∧ (GenreVote.mk "Horror" "Horror" 0).votes = 0
    ∧ (0 : Int) ≤ (GenreVote.mk "Fantasy" "Fantasy" 3).votes := by
  have h := genreVotes_canonical_amended true
    (.resp 200 (some (.arr [.obj [("name", .str "Fantasy"), ("votes", .int 3)]]))) []
  refine ⟨h.1, ?_, ?_⟩
  · exact h.2.2.2.1 (GenreVote.mk "Horror" "Horror" 0) (by decide) (by decide)
  · exact h.2.2.2.2 (by decide) (GenreVote.mk "Fantasy" "Fantasy" 3) (by decide)

/-! ## Claim C4 -/

/-- C4: for every entity and every Gateway outcome (including failure),
`saveBook` prepends and `saveVotingOption` appends exactly one copy of the
entity to the corresponding Local Mirror sequence, carrying the freshly
generated identifier and the current timestamp and preserving all other
fields; every previously stored entry stays present, and the result does
not depend on the remote outcome. -/
theorem save_mirror_unconditional (book opt : JVal) (newId ts : String)
    (res res' : Option JVal) (mirror : List JVal)
    (hb : book.isObj = true) (ho : opt.isObj = true) :
    (saveBook book newId ts res mirror = saveBook book newId ts res' mirror)
    ∧ (saveBook book newId ts res mirror).length = mirror.length + 1
    ∧ (saveBook book newId ts res mirror).drop 1 = mirror
    ∧ (saveBook book newId ts res mirror).take 1 = [localBookEntry book newId ts]
    ∧ jget (localBookEntry book newId ts) "id" = .str newId
    ∧ jget (localBookEntry book newId ts) "createdAt" = .str ts
    ∧ (∀ k, k ≠ "id" → k ≠ "createdAt" →
        jget (localBookEntry book newId ts) k = jget book k)
    ∧ (saveVotingOption opt newId ts res mirror
        = saveVotingOption opt newId ts res' mirror)
    ∧ (saveVotingOption opt newId ts res mirror).length = mirror.length + 1
    ∧ (saveVotingOption opt newId ts res mirror).take mirror.length = mirror
    ∧ (saveVotingOption opt newId ts res mirror).drop mirror.length
        = [localVoteEntry opt newId ts]
    ∧ jget (localVoteEntry opt newId ts) "id" = .str newId
    ∧ jget (localVoteEntry opt newId ts) "createdAt" = .str ts
    ∧ (∀ k, k ≠ "id" → k ≠ "createdAt" →
        jget (localVoteEntry opt newId ts) k = jget opt k) := by
  have hb' : (jset book "id" (JVal.str newId)).isObj = true := by
    rw [isObj_jset]; exact hb
  have ho' : (jset opt "id" (JVal.str newId)).isObj = true := by
    rw [isObj_jset]; exact ho
  refine ⟨rfl, rfl, rfl, rfl, ?_, ?_, ?_, rfl, ?_, ?_, ?_, ?_, ?_, ?_⟩
  · rw [localBookEntry, jget_jset_ne _ _ _ _ (by decide), jget_jset_self _ _ _ hb]
  · rw [localBookEntry, jget_jset_self _ _ _ hb']
  · intro k hk1 hk2
    rw [localBookEntry, jget_jset_ne _ _ _ _ hk2, jget_jset_ne _ _ _ _ hk1]
  · simp [saveVotingOption]
  · simp [saveVotingOption]
  · simp [saveVotingOption]
  · rw [localVoteEntry, jget_jset_ne _ _ _ _ (by decide), jget_jset_self _ _ _ ho]
  · rw [localVoteEntry, jget_jset_self _ _ _ ho']
  · intro k hk1 hk2
    rw [localVoteEntry, jget_jset_ne _ _ _ _ hk2, jget_jset_ne _ _ _ _ hk1]

/-- C4, witness at a concrete book and voting option, with a failed remote
outcome on one side of the independence equation. -/
theorem save_mirror_unconditional_witness :
    saveBook (.obj [("title", .str "Dune")]) "abc123def" "2024-01-01T00:00:00.000Z"
        none [.obj [("title", .str "Old")]]
      = saveBook (.obj [("title", .str "Dune")]) "abc123def" "2024-01-01T00:00:00.000Z"
        (some (.obj [("status", .str "success")])) [.obj [("title", .str "Old")]]
    ∧ jget (localBookEntry (.obj [("title", .str "Dune")]) "abc123def"
        "2024-01-01T00:00:00.000Z") "title" = .str "Dune" := by
  have h := save_mirror_unconditional (.obj [("title", .str "Dune")])
    (.obj [("book_title", .str "Dune")]) "abc123def" "2024-01-01T00:00:00.000Z"
    none (some (.obj [("status", .str "success")])) [.obj [("title", .str "Old")]]
    rfl rfl
  exact ⟨h.1, h.2.2.2.2.2.2.1 "title" (by decide) (by decide)⟩

theorem firstMatchVotes_cons_pos (v : JVal) (rest : List JVal) (id : String)
    (h : jStrEq (jget v "id") id = true) :
    firstMatchVotes (v :: rest) id = some (jget v "votes") := by
  rw [firstMatchVotes,
    @List.find?_cons_of_pos JVal (fun w => jStrEq (jget w "id") id) v rest h,
    Option.map_some']

theorem firstMatchVotes_cons_neg (v : JVal) (rest : List JVal) (id : String)
    (h : ¬ (jStrEq (jget v "id") id = true)) :
    firstMatchVotes (v :: rest) id = firstMatchVotes rest id := by
  rw [firstMatchVotes,
    @List.find?_cons_of_neg JVal (fun w => jStrEq (jget w "id") id) v rest h,
    firstMatchVotes]

/-! ## Claim C5 -/

/-- C5: calling `voteForOption(id)` twice increases the mirrored vote count
of the matching voting option by exactly two — there is no idempotency key
deduplicating repeated calls. -/
theorem voteForOption_twice_plus_two (mirror : List JVal) (id : String)
    (n : Int) (h : firstMatchVotes mirror id = some (.int n)) :
    firstMatchVotes (voteForOption id (voteForOption id mirror)) id
      = some (.int (n + 2)) := by
  induction mirror with
  | nil => simp [firstMatchVotes] at h
  | cons v rest ih =>
      by_cases hc : jStrEq (jget v "id") id = true
      · have hobj : v.isObj = true := isObj_of_jStrEq_jget v "id" id hc
        have hv : jget v "votes" = .int n := by
          rw [firstMatchVotes_cons_pos v rest id hc] at h
          exact Option.some.inj h
        have h1 : voteForOption id (v :: rest)
            = jset v "votes" (.int (n + 1)) :: rest := by
          rw [voteForOption, if_pos hc, hv, votesPlusOne_int]
        have hid1 : jStrEq (jget (jset v "votes" (.int (n + 1))) "id") id = true := by
          rw [jget_jset_ne _ _ _ _ (by decide)]; exact hc
        have hv1 : jget (jset v "votes" (.int (n + 1))) "votes" = .int (n + 1) :=
          jget_jset_self _ _ _ hobj
        have h2 : voteForOption id (jset v "votes" (.int (n + 1)) :: rest)
            = jset (jset v "votes" (.int (n + 1))) "votes" (.int (n + 1 + 1)) :: rest := by
          rw [voteForOption, if_pos hid1, hv1, votesPlusOne_int]
        have hobj1 : (jset v "votes" (.int (n + 1))).isObj = true := by
          rw [isObj_jset]; exact hobj
        have hid2 : jStrEq
            (jget (jset (jset v "votes" (.int (n + 1))) "votes" (.int (n + 1 + 1))) "id")
            id = true := by
          rw [jget_jset_ne _ _ _ _ (by decide)]; exact hid1
        rw [h1, h2, firstMatchVotes_cons_pos _ rest id hid2,
          jget_jset_self _ _ _ hobj1]
        norm_num
        omega
      · have hc' : ¬ (jStrEq (jget v "id") id = true) := hc
        have hrest : firstMatchVotes rest id = some (.int n) := by
          rw [firstMatchVotes_cons_neg v rest id hc'] at h
          exact h
        have h1 : voteForOption id (v :: rest) = v :: voteForOption id rest := by
          rw [voteForOption, if_neg hc']
        have h2 : voteForOption id (v :: voteForOption id rest)
            = v :: voteForOption id (voteForOption id rest) := by
          rw [voteForOption, if_neg hc']
        rw [h1, h2, firstMatchVotes_cons_neg v _ id hc']
        exact ih hrest

/-- C5, witness: an option at 3 votes reaches 5 after two calls. -/
theorem voteForOption_twice_plus_two_witness :
    firstMatchVotes
      (voteForOption "a" (voteForOption "a"
        [.obj [("id", .str "a"), ("votes", .int 3)]])) "a"
      = some (.int (3 + 2)) :=
  voteForOption_twice_plus_two [.obj [("id", .str "a"), ("votes", .int 3)]]
    "a" 3 rfl

theorem voteForOption_no_match_eq (id : String) (mirror : List JVal)
    (h : ∀ w ∈ mirror, jStrEq (jget w "id") id = false) :
    voteForOption id mirror = mirror := by
  induction mirror with
  | nil => rfl
  | cons v rest ih =>
      have hv : ¬ (jStrEq (jget v "id") id = true) := by
        simp [h v (List.mem_cons_self v rest)]
      rw [voteForOption, if_neg hv, ih (fun w hw => h w (List.mem_cons_of_mem v hw))]

theorem voteForOption_match_eq (id : String) (pre : List JVal) (v : JVal)
    (post : List JVal) (hpre : ∀ w ∈ pre, jStrEq (jget w "id") id = false)
    (hv : jStrEq (jget v "id") id = true) :
    voteForOption id (pre ++ v :: post)
      = pre ++ jset v "votes" (votesPlusOne (jget v "votes")) :: post := by
  induction pre with
  | nil => simp [voteForOption, hv]
  | cons w rest ih =>
      have hw : ¬ (jStrEq (jget w "id") id = true) := by
        simp [hpre w (List.mem_cons_self w rest)]
      simp only [List.cons_append, voteForOption, if_neg hw]
      rw [List.append_eq, ih (fun u hu => hpre u (List.mem_cons_of_mem w hu))]

/-! ## Claim C6 -/

/-- C6: if no mirror entry matches the id, `voteForOption` leaves the
mirror completely unchanged (no entry is created); if an entry matches, the
result replaces only the first matching entry, whose every field other than
the vote count is preserved, and whose integer vote count is increased by
exactly one; every other entry is untouched. -/
theorem voteForOption_frame (id : String) (mirror : List JVal) :
    ((∀ w ∈ mirror, jStrEq (jget w "id") id = false) →
      voteForOption id mirror = mirror)
    ∧ (∀ pre v post, mirror = pre ++ v :: post →
        (∀ w ∈ pre, jStrEq (jget w "id") id = false) →
        jStrEq (jget v "id") id = true →
        voteForOption id mirror
          = pre ++ jset v "votes" (votesPlusOne (jget v "votes")) :: post
        ∧ (∀ k, k ≠ "votes" →
            jget (jset v "votes" (votesPlusOne (jget v "votes"))) k = jget v k)
        ∧ (∀ n : Int, jget v "votes" = .int n →
            jget (jset v "votes" (votesPlusOne (jget v "votes"))) "votes"
              = .int (n + 1))) := by
  constructor
  · exact voteForOption_no_match_eq id mirror
  · intro pre v post hsplit hpre hv
    have hobj : v.isObj = true := isObj_of_jStrEq_jget v "id" id hv
    refine ⟨?_, ?_, ?_⟩
    · rw [hsplit]
      exact voteForOption_match_eq id pre v post hpre hv
    · intro k hk
      exact jget_jset_ne v "votes" k _ hk
    · intro n hn
      rw [jget_jset_self _ _ _ hobj, hn, votesPlusOne_int]

/-- C6, witness: a concrete two-entry mirror where only the second entry
matches; its votes go from 7 to 8 and its id field is untouched. -/
theorem voteForOption_frame_witness :
    voteForOption "a"
        [.obj [("id", .str "b"), ("votes", .int 1)],
         .obj [("id", .str "a"), ("votes", .int 7)]]
      = [.obj [("id", .str "b"), ("votes", .int 1)],
         jset (.obj [("id", .str "a"), ("votes", .int 7)]) "votes"
           (votesPlusOne (jget (.obj [("id", .str "a"), ("votes", .int 7)]) "votes"))]
    ∧ jget (jset (.obj [("id", .str "a"), ("votes", .int 7)]) "votes"
        (votesPlusOne (jget (.obj [("id", .str "a"), ("votes", .int 7)]) "votes")))
        "votes" = .int (7 + 1)
    ∧ voteForOption "zzz"
        [.obj [("id", .str "b"), ("votes", .int 1)],
         .obj [("id", .str "a"), ("votes", .int 7)]]
      = [.obj [("id", .str "b"), ("votes", .int 1)],
         .obj [("id", .str "a"), ("votes", .int 7)]] := by
  have h := voteForOption_frame "a"
    [.obj [("id", .str "b"), ("votes", .int 1)],
     .obj [("id", .str "a"), ("votes", .int 7)]]
  have h2 := (h.2 [.obj [("id", .str "b"), ("votes", .int 1)]]
    (.obj [("id", .str "a"), ("votes", .int 7)]) [] rfl (by decide) (by decide))
  have hmiss := voteForOption_frame "zzz"
    [.obj [("id", .str "b"), ("votes", .int 1)],
     .obj [("id", .str "a"), ("votes", .int 7)]]
  exact ⟨h2.1, h2.2.2 7 rfl, hmiss.1 (by decide)⟩

/-! ## Claim C7 -/

/-- C7: `clearVotingOptions` always leaves the voting-options mirror empty,
for every prior mirror state and every remote outcome; `resetGenreVotes`
rewrites the genre-votes mirror to exactly the 8 canonical genre entries,
each with id = name and vote count 0, and the remote reset handler sets
every tally cell of the genre sheet to 0 and deletes every row of the
per-user genre-vote history store. -/
theorem reset_clear_semantics (res : Option JVal) (mirror : List JVal)
    (genreRows historyRows : List (List JVal)) :
    clearVotingOptions res mirror = []
    ∧ resetGenreVotesLocal.map GenreVote.id = DEFAULT_GENRES
    ∧ resetGenreVotesLocal.map GenreVote.name = DEFAULT_GENRES
    ∧ resetGenreVotesLocal.length = 8
    ∧ (∀ g ∈ resetGenreVotesLocal, g.votes = 0)
    ∧ (resetGenreVotesRemote genreRows historyRows).2 = []
    ∧ (∀ row ∈ (resetGenreVotesRemote genreRows historyRows).1,
        2 < row.length → row.get? 2 = some (.int 0)) := by
  refine ⟨rfl, rfl, rfl, rfl, ?_, rfl, ?_⟩
  · intro g hg
    simp only [resetGenreVotesLocal, List.mem_map] at hg
    obtain ⟨name, -, rfl⟩ := hg
    rfl
  · intro row hrow hlen
    simp only [resetGenreVotesRemote, List.mem_map] at hrow
    obtain ⟨r, -, rfl⟩ := hrow
    have hlen' : 2 < r.length := by simpa using hlen
    simp [List.get?_eq_getElem?, List.getElem?_set_self, hlen']

/-- C7, witness at a concrete mirror, genre sheet and history sheet. -/
theorem reset_clear_semantics_witness :
    clearVotingOptions none [.obj [("id", .str "x")]] = []
    ∧ (GenreVote.mk "Romance" "Romance" 9).votes = 9
    ∧ (resetGenreVotesRemote [[.str "g1", .str "g1", .int 5]] [[.str "e", .str "g1"]]).2 = []
    ∧ ([JVal.str "g1", .str "g1", .int 0] : List JVal).get? 2 = some (.int 0) := by
  have h := reset_clear_semantics none [.obj [("id", .str "x")]]
    [[.str "g1", .str "g1", .int 5]] [[.str "e", .str "g1"]]
  refine ⟨h.1, rfl, h.2.2.2.2.2.1, ?_⟩
  have hr := h.2.2.2.2.2.2 ([JVal.str "g1", .str "g1", .int 5].set 2 (.int 0))
    (List.mem_singleton.mpr rfl) (by decide)
  exact hr

/-! ## Claim C8 -/

/-- C8: when the session profile's email is empty, `voteForGenre` throws
the validation error "Please set your profile email to vote" to its caller,
issues no remote call and leaves the genre-votes mirror unchanged; when the
email is a non-empty string the vote proceeds: the `voteGenre` action (and
the nested read) are issued and the call resolves. -/
theorem voteForGenre_email_validation (user : JVal) (genreName : String)
    (configured : Bool) (voteOut readOut : FetchOutcome) (mirror : List JVal) :
    (jget user "email" = .str "" →
      voteForGenre user genreName configured voteOut readOut mirror
        = { result := .error (.str "Please set your profile email to vote")
            remoteCalls := []
            finalMirror := mirror })
    ∧ (∀ s : String, s ≠ "" → jget user "email" = .str s →
        (voteForGenre user genreName configured voteOut readOut mirror).remoteCalls
          = ["voteGenre", "getGenreVotes"]
        ∧ (voteForGenre user genreName configured voteOut readOut mirror).result
          = .ok ()) := by
  constructor
  · intro he
    rw [voteForGenre, he]
    simp [JVal.falsy]
  · intro s hs he
    have hfal : (jget user "email").falsy = false := by
      rw [he]
      simpa [JVal.falsy] using hs
    rw [voteForGenre, hfal]
    simp only [Bool.false_eq_true, if_false]
    cases hres : callSheetsAPI configured voteOut with
    | none => exact ⟨rfl, rfl⟩
    | some v =>
        have hnf := isErrorTagged_false_of_callSheetsAPI configured voteOut v hres
        simp only [hnf]
        exact ⟨rfl, rfl⟩

/-- C8, witness: an empty-email profile is rejected with no remote call and
an unchanged mirror; a profile with an email proceeds. -/
theorem voteForGenre_email_validation_witness :
    voteForGenre (.obj [("name", .str "A"), ("email", .str "")]) "Horror"
        true .fail .fail [.obj [("id", .str "Horror")]]
      = { result := .error (.str "Please set your profile email to vote")
          remoteCalls := []
          finalMirror := [.obj [("id", .str "Horror")]] }
    ∧ (voteForGenre (.obj [("name", .str "A"), ("email", .str "a@b.c")])
        "Horror" true .fail .fail []).remoteCalls
      = ["voteGenre", "getGenreVotes"] := by
  have h1 := (voteForGenre_email_validation
    (.obj [("name", .str "A"), ("email", .str "")]) "Horror" true .fail .fail
    [.obj [("id", .str "Horror")]]).1 rfl
  have h2 := (voteForGenre_email_validation
    (.obj [("name", .str "A"), ("email", .str "a@b.c")]) "Horror" true .fail .fail
    []).2 "a@b.c" (by decide) rfl
  exact ⟨h1, h2.1⟩

/-! ## Claim C10 -/

/-- C10, counterexample: the stored datum "null" is valid JSON parsing to a
non-string value, so `getCurrentUser` returns that raw value — which has
neither a string name field nor a string email field — refuting the claim
that every possible stored content yields a record with string name and
email. -/
theorem getCurrentUser_nonrecord_cex :
    getCurrentUser (some "null") = JVal.null
    ∧ hasStringField (getCurrentUser (some "null")) "name" = false
    ∧ hasStringField (getCurrentUser (some "null")) "email" = false :=
  ⟨rfl, rfl, rfl⟩

/-- C10, amended: `getCurrentUser` never throws; absent or empty stored
data yields the placeholder profile (name "Book Club Member", empty email);
data that fails to parse as JSON yields the raw string as name with empty
email; data parsing to a JSON string yields that string as name with empty
email; data parsing to any other JSON value is returned as-is and need not
carry string name/email fields. -/
theorem getCurrentUser_amended (s t : String) (v : JVal) :
    (getCurrentUser none
      = .obj [("name", .str "Book Club Member"), ("email", .str "")])
    ∧ (getCurrentUser (some "")
      = .obj [("name", .str "Book Club Member"), ("email", .str "")])
    ∧ (hasStringField (getCurrentUser none) "name" = true
        ∧ hasStringField (getCurrentUser none) "email" = true)
    ∧ (s ≠ "" → jsonParse s = none →
        getCurrentUser (some s) = .obj [("name", .str s), ("email", .str "")])
    ∧ (s ≠ "" → jsonParse s = some (.str t) →
        getCurrentUser (some s) = .obj [("name", .str t), ("email", .str "")])
    ∧ (s ≠ "" → jsonParse s = some v → (∀ u : String, v ≠ .str u) →
        getCurrentUser (some s) = v) := by
  refine ⟨rfl, rfl, ⟨rfl, rfl⟩, ?_, ?_, ?_⟩
  · intro hs hp
    rw [getCurrentUser, if_neg hs, hp]
  · intro hs hp
    rw [getCurrentUser, if_neg hs, hp]
  · intro hs hp hns
    rw [getCurrentUser, if_neg hs, hp]
    cases v with
    | str u => exact absurd rfl (hns u)
    | undefined => rfl
    | null => rfl
    | bool b => rfl
    | int n => rfl
    | nan => rfl
    | arr xs => rfl
    | obj fs => rfl

/-- C10, witness: the legacy plain string "Alice" is unparsable and becomes
the name; the datum "42" parses to a non-string and is returned as-is. -/
theorem getCurrentUser_amended_witness :
    getCurrentUser (some "Alice")
      = .obj [("name", .str "Alice"), ("email", .str "")]
    ∧ getCurrentUser (some "42") = .int 42 := by
  refine ⟨(getCurrentUser_amended "Alice" "" .undefined).2.2.2.1 (by decide) rfl, ?_⟩
  exact (getCurrentUser_amended "42" "" (.int 42)).2.2.2.2.2 (by decide) rfl
    (fun u h => JVal.noConfusion h)

end TorcReads
